import Mathlib

/-!
Verification of the skadoo flag-parsing core (`src/skadoo/flag.py`).

The Python module builds one immutable `Flag` record per logical flag name:
it derives canonical long/short forms from the name, detects presence in the
process token list, extracts an associated value, and validates the record.

The embedding is a shallow one: Python exceptions become an `Except FlagError`
result, and the ambient token list (`utils.get_command_parts`) becomes an
explicit `parts : List String` parameter.  The helpers of the `utils` module
are not part of the repository snapshot; they are modelled from the spec and
marked as such below.  Everything else is translated from `flag.py`.
-/

namespace Skadoo

instance exceptDecEq {ε α : Type} [DecidableEq ε] [DecidableEq α] :
    DecidableEq (Except ε α) := fun a b =>
  match a, b with
  | Except.ok x, Except.ok y =>
    if h : x = y then isTrue (by rw [h])
    else isFalse (by intro hc; injection hc; contradiction)
  | Except.error x, Except.error y =>
    if h : x = y then isTrue (by rw [h])
    else isFalse (by intro hc; injection hc; contradiction)
  | Except.ok _, Except.error _ => isFalse (by intro hc; cases hc)
  | Except.error _, Except.ok _ => isFalse (by intro hc; cases hc)

/-- Errors raised by the Python code: `ValueError` from `Flag.validate`
(carrying its message), `IndexError` from `parts[index + 1]` running past the
end of the list, and the (unreachable) `TypeError` Python would raise on
`parts[None + 1]` when no form was found. -/
inductive FlagError where
  | validation (msg : String)
  | indexError
  | typeError
deriving Repr, DecidableEq

/-- The `Flag` NamedTuple of `flag.py`, with the source's field names.
`called` is the spec's `present`; `empty` is the spec's `expects_value`
(true iff the flag is a bare switch taking no value). -/
structure Flag where
  name : String
  flag : String
  description : String
  called : Bool
  short : String
  value : String
  empty : Bool
deriving Repr, DecidableEq

/-- `Flag.validate` from `flag.py`: raises
`ValueError(f"Cannot set value (\x7bvalue\x7d) for empty flag (\x7bflag\x7d)")`
when the flag is empty but carries a non-empty value. -/
def Flag.validate (f : Flag) : Except FlagError Unit :=
  if f.empty = true ∧ f.value ≠ "" then
    Except.error (FlagError.validation
      ("Cannot set value (" ++ f.value ++ ") for empty flag (" ++ f.flag ++ ")"))
  else
    Except.ok ()

/-- Splits a character list at whitespace; helper for `get_name_parts`
(possibly-empty chunks, filtered by the caller). -/
def split_ws : List Char → List (List Char)
  | [] => [[]]
  | c :: cs =>
    match split_ws cs with
    | [] => [[]]
    | w :: ws => if c.isWhitespace then [] :: w :: ws else (c :: w) :: ws

/-- Modelled from the spec: `utils.get_name_parts` is not under `src/`.
Spec §4.1: "Split `name` on whitespace into lowercase word parts (word order
preserved, no de-duplication)". -/
def get_name_parts (name : String) : List String :=
  ((split_ws (name.toList.map Char.toLower)).filter (fun w => w ≠ [])).map
    (fun w => String.mk w)

/-- Modelled from the spec: `utils.is_called` is not under `src/`.
Spec §4.2: "present = (long_form in tokens) OR (short_form in tokens)",
exact string equality, no side effects. -/
def is_called (full abbreviation : String) (parts : List String) : Bool :=
  decide (full ∈ parts) || decide (abbreviation ∈ parts)

/-- The index-resolution steps of `parse_flag` (`flag.py` lines 71, 79-83):
`index = None`, then `if flag in parts: index = parts.index(flag)`,
then `if short in parts: index = parts.index(short)`.  The short form's
assignment runs second and overwrites the long form's. -/
def matched_index (flag short : String) (parts : List String) : Option Nat :=
  let index : Option Nat := none
  let index := if flag ∈ parts then some (parts.indexOf flag) else index
  let index := if short ∈ parts then some (parts.indexOf short) else index
  index

/-- `parse_flag` from `flag.py` (lines 58-85), with the token list passed
explicitly.  Returns `"False"` when neither form occurs, `"True"` for a
present empty flag, otherwise the token after the resolved index;
`parts[index + 1]` past the end is Python's `IndexError`. -/
def parse_flag (flag short : String) (empty : Bool) (parts : List String) :
    Except FlagError String :=
  if flag ∉ parts ∧ short ∉ parts then
    Except.ok "False"
  else if empty = true then
    Except.ok "True"
  else
    match matched_index flag short parts with
    | none => Except.error FlagError.typeError
    | some index =>
      match parts.get? (index + 1) with
      | some v => Except.ok v
      | none => Except.error FlagError.indexError

/-- Long-form derivation inside `create_flag` (`flag.py` lines 112-113):
`if flag == "": flag = "--" + "-".join(flag_parts)`. -/
def derive_long (name fl : String) : String :=
  if fl = "" then "--" ++ String.intercalate "-" (get_name_parts name) else fl

/-- Short-form derivation inside `create_flag` (`flag.py` lines 115-116):
`if short == "": short = "-" + "".join([_[:1] for _ in flag_parts])`. -/
def derive_short (name short : String) : String :=
  if short = "" then
    "-" ++ String.join ((get_name_parts name).map (fun p => String.mk (p.toList.take 1)))
  else short

/-- `create_flag` from `flag.py` (lines 88-126), token list explicit.
Derive the forms, detect presence, overwrite `value` by `parse_flag` when
called, build the record, validate it, return it.  Arguments are in the
source's order: `name, flag, description, short, value, empty`. -/
def create_flag (name fl description short value : String) (empty : Bool)
    (parts : List String) : Except FlagError Flag :=
  let flag := derive_long name fl
  let short := derive_short name short
  let called := is_called flag short parts
  match (if called then parse_flag flag short empty parts else Except.ok value) with
  | Except.error e => Except.error e
  | Except.ok value =>
    let result : Flag := ⟨name, flag, description, called, short, value, empty⟩
    match result.validate with
    | Except.error e => Except.error e
    | Except.ok _ => Except.ok result

example : get_name_parts "dry run" = ["dry", "run"] := by decide

example : derive_long "dry run" "" = "--dry-run" := by decide

example : derive_short "dry run" "" = "-dr" := by decide

/-- Helper: a successful `create_flag` yields exactly the record assembled at
`flag.py` line 123 — every field except `value` is determined by the inputs. -/
theorem create_flag_ok_shape (name fl d s v : String) (empty : Bool)
    (tokens : List String) (r : Flag)
    (h : create_flag name fl d s v empty tokens = Except.ok r) :
    r.name = name ∧ r.flag = derive_long name fl ∧ r.description = d ∧
    r.called = is_called (derive_long name fl) (derive_short name s) tokens ∧
    r.short = derive_short name s ∧ r.empty = empty := by
  simp only [create_flag] at h
  split at h
  · exact absurd h (by simp)
  · split at h
    · exact absurd h (by simp)
    · injection h with h
      subst h
      exact ⟨rfl, rfl, rfl, rfl, rfl, rfl⟩

/-- C1: the spec's end-to-end example — an empty flag (`expects_value = True`)
whose long form is on the command line — does NOT return a record: extraction
sets `value = "True"`, and `Flag.validate` then rejects the record because the
check `empty and value != ""` runs after extraction.  The code raises
`ValueError` on its own primary use case. -/
theorem c1_present_empty_flag_raises :
    create_flag "dry run" "" "" "" "" true ["--dry-run"]
      = Except.error (FlagError.validation
          "Cannot set value (True) for empty flag (--dry-run)") := by decide

/-- C2 counterexample: flag `--out` / `-o` with tokens
`["--out", "a", "-o", "b"]` — the claim says the value is `"a"` (after the
long form), but the code extracts `"b"` (after the short form). -/
theorem c2_counterexample :
    (create_flag "out" "--out" "" "-o" "" false
        ["--out", "a", "-o", "b"]).map Flag.value ≠ Except.ok "a" := by decide

/-- C2 (amended): when both forms occur in the token list and the flag expects
a value, the SHORT form's position is authoritative — the extracted value is
the token immediately after the short form's first occurrence, because the
short-form index assignment runs second and overwrites the long-form one. -/
theorem c2_short_form_position_authoritative
    (name fl d s v x : String) (tokens : List String)
    (hL : derive_long name fl ∈ tokens) (hS : derive_short name s ∈ tokens)
    (hx : tokens.get? (tokens.indexOf (derive_short name s) + 1) = some x) :
    (create_flag name fl d s v false tokens).map Flag.value = Except.ok x := by
  simp only [create_flag, is_called, parse_flag, matched_index]
  rw [if_pos (by simp [hL])]
  rw [if_neg (by simp [hL]), if_neg (by simp)]
  rw [if_pos hL, if_pos hS]
  simp only []
  rw [hx]
  simp [Flag.validate, Except.map]

/-- C2 witness: the amended claim at the counterexample's input — the value
is `"b"`, the token after `-o`. -/
theorem c2_witness :
    (create_flag "out" "--out" "" "-o" "" false
        ["--out", "a", "-o", "b"]).map Flag.value = Except.ok "b" :=
  c2_short_form_position_authoritative "out" "--out" "" "-o" "" "b"
    ["--out", "a", "-o", "b"] (by decide) (by decide) (by decide)

/-- C3 counterexample: with the default `value = ""` and an empty token list,
the returned record's value is `""`, not the claimed `"False"` — `parse_flag`'s
`"False"` branch is unreachable from `create_flag`, which only calls it when
the flag is present. -/
theorem c3_counterexample :
    (create_flag "out" "" "" "" "" false []).map Flag.value
      ≠ Except.ok "False" := by decide

/-- C3 (amended): when the token list contains neither form (and validation
passes), the record has `called = False` and `value` equal to the
caller-supplied `value` argument, which defaults to the empty string. -/
theorem c3_absent_flag_keeps_caller_value
    (name fl d s v : String) (empty : Bool) (tokens : List String)
    (hL : derive_long name fl ∉ tokens) (hS : derive_short name s ∉ tokens)
    (hv : ¬(empty = true ∧ v ≠ "")) :
    create_flag name fl d s v empty tokens
      = Except.ok ⟨name, derive_long name fl, d, false, derive_short name s,
          v, empty⟩ := by
  simp only [create_flag, is_called]
  rw [if_neg (by simp [hL, hS])]
  simp only [Flag.validate]
  rw [if_neg hv]
  simp [hL, hS]

/-- C3 witness: the amended claim at the counterexample's input. -/
theorem c3_witness :
    create_flag "out" "" "" "" "" false []
      = Except.ok ⟨"out", derive_long "out" "", "", false, derive_short "out" "",
          "", false⟩ :=
  c3_absent_flag_keeps_caller_value "out" "" "" "" "" false []
    (by decide) (by decide) (by decide)

/-- C4: a value-expecting flag (`empty = False`) whose matched form resolves
to the last token position fails with `IndexError` (the spec's
OutOfRangeError) — `parts[index + 1]` runs past the end of the list; no
record with a defaulted value is returned. -/
theorem c4_matched_last_token_index_error
    (name fl d s v : String) (tokens : List String)
    (hcalled : derive_long name fl ∈ tokens ∨ derive_short name s ∈ tokens)
    (hlast : matched_index (derive_long name fl) (derive_short name s) tokens
      = some (tokens.length - 1)) :
    create_flag name fl d s v false tokens
      = Except.error FlagError.indexError := by
  have hne : tokens ≠ [] := by
    rcases hcalled with h | h <;> exact List.ne_nil_of_mem h
  have hlen : tokens.length - 1 + 1 = tokens.length :=
    Nat.succ_pred_eq_of_pos (List.length_pos.mpr hne)
  simp only [create_flag, is_called, parse_flag]
  rw [if_pos (by rcases hcalled with h | h <;> simp [h])]
  rw [if_neg (by push_neg; intro h; exact hcalled.resolve_left h)]
  rw [if_neg (by simp)]
  rw [hlast]
  simp only [hlen]
  rw [List.get?_eq_none.mpr (le_refl tokens.length)]

/-- C4 witness: `--out` as the only (hence last) token with
`empty = False` fails with the index error. -/
theorem c4_witness :
    create_flag "out" "" "" "" "" false ["--out"]
      = Except.error FlagError.indexError :=
  c4_matched_last_token_index_error "out" "" "" "" "" ["--out"]
    (by decide) (by decide)

/-- C5: an empty flag (`expects_value = True`) constructed with a non-empty
`value` override, absent from the token list, fails with the
`ValueError` from `Flag.validate`, whose message names the conflicting
value and flag; no record is returned. -/
theorem c5_absent_override_validation_error
    (name fl d s v : String) (tokens : List String)
    (hv : v ≠ "")
    (hL : derive_long name fl ∉ tokens) (hS : derive_short name s ∉ tokens) :
    create_flag name fl d s v true tokens
      = Except.error (FlagError.validation
          ("Cannot set value (" ++ v ++ ") for empty flag ("
            ++ derive_long name fl ++ ")")) := by
  simp only [create_flag, is_called]
  rw [if_neg (by simp [hL, hS])]
  simp only [Flag.validate]
  rw [if_pos ⟨trivial, hv⟩]

/-- C5 witness: `create_flag` with `value = "x"`, `empty = True` and no
matching token fails with the named validation error. -/
theorem c5_witness :
    create_flag "out" "" "" "" "x" true []
      = Except.error (FlagError.validation
          ("Cannot set value (" ++ "x" ++ ") for empty flag ("
            ++ derive_long "out" "" ++ ")")) :=
  c5_absent_override_validation_error "out" "" "" "" "x" []
    (by decide) (by decide) (by decide)

/-- C6: with no explicit overrides, the long form is `--` followed by the
name's word parts joined with `-`, and the short form is `-` followed by the
first letter of each part in order. -/
theorem c6_derived_forms
    (name d v : String) (empty : Bool) (tokens : List String) (r : Flag)
    (h : create_flag name "" d "" v empty tokens = Except.ok r) :
    r.flag = "--" ++ String.intercalate "-" (get_name_parts name) ∧
    r.short = "-" ++ String.join ((get_name_parts name).map
      (fun p => String.mk (p.toList.take 1))) := by
  obtain ⟨-, hflag, -, -, hshort, -⟩ :=
    create_flag_ok_shape name "" d "" v empty tokens r h
  refine ⟨?_, ?_⟩
  · rw [hflag]; simp [derive_long]
  · rw [hshort]; simp [derive_short]

/-- C6 witness: the single-word edge case — `"word"` yields
`--word` / `-w`. -/
theorem c6_witness :
    (⟨"word", "--word", "", false, "-w", "", false⟩ : Flag).flag
        = "--" ++ String.intercalate "-" (get_name_parts "word") ∧
    (⟨"word", "--word", "", false, "-w", "", false⟩ : Flag).short
        = "-" ++ String.join ((get_name_parts "word").map
            (fun p => String.mk (p.toList.take 1))) :=
  c6_derived_forms "word" "" "" false []
    ⟨"word", "--word", "", false, "-w", "", false⟩ (by decide)

/-- C7: any record `create_flag` returns has `called = true` exactly when the
long form or the short form occurs in the token list under exact string
equality (the embedding is a pure function, so the test has no side
effects). -/
theorem c7_presence_iff_membership
    (name fl d s v : String) (empty : Bool) (tokens : List String) (r : Flag)
    (h : create_flag name fl d s v empty tokens = Except.ok r) :
    (r.called = true ↔
      derive_long name fl ∈ tokens ∨ derive_short name s ∈ tokens) := by
  obtain ⟨-, -, -, hcalled, -, -⟩ :=
    create_flag_ok_shape name fl d s v empty tokens r h
  rw [hcalled]
  simp [is_called]

/-- C7 witness: with tokens `["--out", "x"]` the returned record is called,
and indeed the long form `--out` is a member. -/
theorem c7_witness :
    ((⟨"out", "--out", "", true, "-o", "x", false⟩ : Flag).called = true ↔
      derive_long "out" "" ∈ (["--out", "x"] : List String) ∨
      derive_short "out" "" ∈ (["--out", "x"] : List String)) :=
  c7_presence_iff_membership "out" "" "" "" "" false ["--out", "x"]
    ⟨"out", "--out", "", true, "-o", "x", false⟩ (by decide)

/-- C8: a value-expecting flag (`empty = False`) whose long form occurs in the
token list immediately followed by token `x`, the short form not occurring,
yields a record whose value is `x`, the literal next token. -/
theorem c8_long_form_followed_by_value
    (name fl d s v x : String) (tokens : List String)
    (hL : derive_long name fl ∈ tokens)
    (hS : derive_short name s ∉ tokens)
    (hx : tokens.get? (tokens.indexOf (derive_long name fl) + 1) = some x) :
    (create_flag name fl d s v false tokens).map Flag.value = Except.ok x := by
  simp only [create_flag, is_called, parse_flag, matched_index]
  rw [if_pos (by simp [hL])]
  rw [if_neg (by simp [hL]), if_neg (by simp)]
  rw [if_pos hL, if_neg hS]
  simp only []
  rw [hx]
  simp [Flag.validate, Except.map]

/-- C8 witness: the spec's own example — `--output` followed by
`result.txt`. -/
theorem c8_witness :
    (create_flag "output" "" "" "" "" false
        ["--output", "result.txt"]).map Flag.value = Except.ok "result.txt" :=
  c8_long_form_followed_by_value "output" "" "" "" "" "result.txt"
    ["--output", "result.txt"] (by decide) (by decide) (by decide)

/-- C9: construction is deterministic — two records built from identical
arguments and an identical token list agree on every field. -/
theorem c9_deterministic
    (name fl d s v : String) (empty : Bool) (tokens : List String)
    (r1 r2 : Flag)
    (h1 : create_flag name fl d s v empty tokens = Except.ok r1)
    (h2 : create_flag name fl d s v empty tokens = Except.ok r2) :
    r1.name = r2.name ∧ r1.flag = r2.flag ∧
    r1.description = r2.description ∧ r1.called = r2.called ∧
    r1.short = r2.short ∧ r1.value = r2.value ∧ r1.empty = r2.empty := by
  rw [h1] at h2
  injection h2 with h
  subst h
  exact ⟨rfl, rfl, rfl, rfl, rfl, rfl, rfl⟩

/-- C9 witness: two identical absent-flag constructions agree. -/
theorem c9_witness :
    (⟨"out", "--out", "", false, "-o", "", false⟩ : Flag).name
        = (⟨"out", "--out", "", false, "-o", "", false⟩ : Flag).name ∧
    (⟨"out", "--out", "", false, "-o", "", false⟩ : Flag).flag
        = (⟨"out", "--out", "", false, "-o", "", false⟩ : Flag).flag ∧
    (⟨"out", "--out", "", false, "-o", "", false⟩ : Flag).description
        = (⟨"out", "--out", "", false, "-o", "", false⟩ : Flag).description ∧
    (⟨"out", "--out", "", false, "-o", "", false⟩ : Flag).called
        = (⟨"out", "--out", "", false, "-o", "", false⟩ : Flag).called ∧
    (⟨"out", "--out", "", false, "-o", "", false⟩ : Flag).short
        = (⟨"out", "--out", "", false, "-o", "", false⟩ : Flag).short ∧
    (⟨"out", "--out", "", false, "-o", "", false⟩ : Flag).value
        = (⟨"out", "--out", "", false, "-o", "", false⟩ : Flag).value ∧
    (⟨"out", "--out", "", false, "-o", "", false⟩ : Flag).empty
        = (⟨"out", "--out", "", false, "-o", "", false⟩ : Flag).empty :=
  c9_deterministic "out" "" "" "" "" false []
    ⟨"out", "--out", "", false, "-o", "", false⟩
    ⟨"out", "--out", "", false, "-o", "", false⟩ (by decide) (by decide)

/-- Helper: with `empty = False`, `parse_flag` either returns a value or
fails with the index error — never a validation error, never the unreachable
`TypeError` (a found form always sets the index). -/
theorem parse_flag_not_empty_cases (flag short : String)
    (parts : List String) :
    (∃ w, parse_flag flag short false parts = Except.ok w) ∨
    parse_flag flag short false parts = Except.error FlagError.indexError := by
  unfold parse_flag
  by_cases h1 : flag ∉ parts ∧ short ∉ parts
  · rw [if_pos h1]
    exact Or.inl ⟨"False", rfl⟩
  · rw [if_neg h1, if_neg (by simp)]
    have hmem : flag ∈ parts ∨ short ∈ parts := by
      push_neg at h1
      by_cases hf : flag ∈ parts
      · exact Or.inl hf
      · exact Or.inr (h1 hf)
    obtain ⟨i, hi⟩ : ∃ i, matched_index flag short parts = some i := by
      unfold matched_index
      by_cases hs : short ∈ parts
      · simp [hs]
      · have hf : flag ∈ parts := hmem.resolve_right hs
        simp [hs, hf]
    rw [hi]
    simp only []
    cases hg : parts.get? (i + 1) with
    | none => exact Or.inr rfl
    | some w => exact Or.inl ⟨w, rfl⟩

/-- C10: with `empty = False` validation can never fail — `Flag.validate`
only fires for flags declared empty — so construction either returns a
record (with whatever caller-supplied default value) or fails during
extraction with the index error, for every token list. -/
theorem c10_value_flag_never_validation_error
    (name fl d s v : String) (tokens : List String) :
    (∃ r, create_flag name fl d s v false tokens = Except.ok r) ∨
    create_flag name fl d s v false tokens
      = Except.error FlagError.indexError := by
  simp only [create_flag]
  by_cases hc : is_called (derive_long name fl) (derive_short name s) tokens
  · rw [if_pos hc]
    rcases parse_flag_not_empty_cases (derive_long name fl)
        (derive_short name s) tokens with ⟨w, hw⟩ | he
    · rw [hw]
      simp [Flag.validate]
    · rw [he]
      exact Or.inr rfl
  · rw [if_neg hc]
    simp [Flag.validate]

end Skadoo
